import Mathlib

/-!
Shallow embedding of `icetransport.go` (package webrtc, `ICETransport`).

The Go source manages a single ICE transport: `Start` performs precondition
checks under a lock, releases the lock around a blocking role-dependent
dial/accept, then reacquires it to publish the connection and multiplexer;
`stop` forces the `Closed` state, cancels any in-flight handshake and closes
the multiplexer or gatherer; candidate/credential mutators delegate to the
underlying ICE agent.

External collaborators (the ICE agent, the gatherer's agent creation, the
multiplexer and gatherer close operations, candidate conversion) live outside
this file's source; their outcomes are passed in as explicit parameters, and
calls to them are recorded in an event trace so that ordering properties can
be stated.  The window in `Start` where the lock is released is modelled by a
`midState` field: the transport state observed when `Start` reacquires the
lock, which a concurrent `stop` or agent callback may have changed.
-/

namespace IceTransport

/-- `ICERole` from the Go source: zero value `unknown`, then
`ICERoleControlling`, `ICERoleControlled`. -/
inductive ICERole where
  | unknown
  | controlling
  | controlled
deriving DecidableEq, Repr

/-- `ICETransportState`: zero value `unknown`, then the lifecycle states. -/
inductive ICETransportState where
  | unknown
  | new
  | checking
  | connected
  | completed
  | disconnected
  | failed
  | closed
deriving DecidableEq, Repr

/-- Error values returned by the transport.  Named errors mirror the Go
sentinel errors; `external` stands for an error propagated verbatim from a
collaborator (dial/accept failure, close failure, candidate conversion
failure, agent-creation failure). -/
inductive Err where
  | notInNew
  | agentNotExist
  | gathererNotStarted
  | roleUnknown
  | transportClosed
  | external (code : Nat)
deriving DecidableEq, Repr

/-- The transport's view of its `ICEGatherer` collaborator: whether the
gatherer currently owns an agent (`getAgent() != nil`), and the receive MTU
its setting engine reports (`getReceiveMTU`). -/
structure Gatherer where
  hasAgent : Bool
  receiveMTU : Nat
deriving DecidableEq, Repr

/-- The multiplexer as constructed in `Start`: `mux.NewMux` is called with a
config holding the connection and the buffer size. -/
structure Mux where
  conn : Nat
  bufferSize : Nat
deriving DecidableEq, Repr

/-- `ICEParameters`: the fields `Start` reads. -/
structure ICEParameters where
  usernameFragment : String
  password : String
deriving DecidableEq, Repr

/-- The mutable fields of `ICETransport` that the modelled operations touch.
Connections are identified by `Nat` handles.  `hasCancel` records whether
`ctxCancel` is non-nil. -/
structure Transport where
  role : ICERole
  state : ICETransportState
  gatherer : Option Gatherer
  conn : Option Nat
  mux : Option Mux
  hasCancel : Bool
deriving DecidableEq, Repr

/-- Calls made to external collaborators, recorded in order. -/
inductive Event where
  | dial (ufrag pwd : String)
  | accept (ufrag pwd : String)
  | cancelTriggered
  | gathererGracefulClose
  | gathererClose
  | muxClose
deriving DecidableEq, Repr

/-- `NewICETransport`: binds the gatherer and sets the state to `New`. -/
def newICETransport (gatherer : Option Gatherer) : Transport :=
  { role := ICERole.unknown
    state := ICETransportState.new
    gatherer := gatherer
    conn := none
    mux := none
    hasCancel := false }

/-- `getAgent() != nil` as seen through the transport's gatherer. -/
def Transport.hasAgent (t : Transport) : Bool :=
  match t.gatherer with
  | some g => g.hasAgent
  | none => false

/-- `ensureGatherer`: fails if the gatherer is unset; otherwise lazily
creates the agent when the gatherer has none.  `createAgentRes` is the
outcome of the external `gatherer.createAgent()` call (`none` = success, in
which case the gatherer now owns an agent). -/
def ensureGatherer (t : Transport) (createAgentRes : Option Err) :
    Except Err Transport :=
  match t.gatherer with
  | none => Except.error Err.gathererNotStarted
  | some g =>
    if g.hasAgent then Except.ok t
    else
      match createAgentRes with
      | some e => Except.error e
      | none =>
        Except.ok { t with gatherer := some { g with hasAgent := true } }

/-- Collaborator outcomes consumed by one `Start` call, plus `midState`: the
transport state observed when `Start` reacquires its lock after the
dial/accept (a concurrent `stop` or agent state-change callback may have
stored a new state during the unlocked window). -/
structure StartEnv where
  createAgentRes : Option Err
  onConnRegRes : Option Err
  onPairRegRes : Option Err
  dialRes : Except Err Nat
  acceptRes : Except Err Nat
  midState : ICETransportState
deriving Repr

/-- The first critical section of `Start`, up to and including the callback
registrations: the `New`-state precondition, the optional gatherer
replacement, `ensureGatherer`, the nil-agent check and the two callback
registrations on the agent.  Returns the (possibly partially mutated)
transport together with the error that aborts `Start`, if any. -/
def startPre (t : Transport) (gatherer : Option Gatherer) (env : StartEnv) :
    Transport × Option Err :=
  if t.state = ICETransportState.new then
    let t1 :=
      match gatherer with
      | some g => { t with gatherer := some g }
      | none => t
    match ensureGatherer t1 env.createAgentRes with
    | Except.error e => (t1, some e)
    | Except.ok t2 =>
      if t2.hasAgent then
        match env.onConnRegRes with
        | some e => (t2, some e)
        | none =>
          match env.onPairRegRes with
          | some e => (t2, some e)
          | none => (t2, none)
      else (t2, some Err.agentNotExist)
  else (t, some Err.notInNew)

/-- The role dispatch of `Start`, executed with the lock released:
`Controlling` dials, `Controlled` accepts, any other role value yields
`errICERoleUnknown` without touching the agent. -/
def dispatch (role : ICERole) (params : ICEParameters) (env : StartEnv) :
    Except Err Nat × List Event :=
  match role with
  | ICERole.controlling =>
    (env.dialRes, [Event.dial params.usernameFragment params.password])
  | ICERole.controlled =>
    (env.acceptRes, [Event.accept params.usernameFragment params.password])
  | ICERole.unknown => (Except.error Err.roleUnknown, [])

/-- The tail of `Start` after the precondition checks succeeded: default the
role to `Controlled`, store it, create the cancellation scope, drop the lock,
dispatch on the role, reacquire the lock (observing `env.midState`), and
either propagate the dial/accept error, abort with `errICETransportClosed`
when a concurrent stop closed the transport, or publish the connection and
build the multiplexer with the gatherer's receive MTU as buffer size. -/
def startRest (t1 : Transport) (params : ICEParameters)
    (role : Option ICERole) (env : StartEnv) :
    Transport × Option Err × List Event :=
  let r := role.getD ICERole.controlled
  let t2 := { t1 with role := r, hasCancel := true }
  let d := dispatch r params env
  let t3 := { t2 with state := env.midState }
  match d with
  | (Except.error e, evs) => (t3, some e, evs)
  | (Except.ok c, evs) =>
    if t3.state = ICETransportState.closed then
      (t3, some Err.transportClosed, evs)
    else
      let bufSize :=
        match t3.gatherer with
        | some g => g.receiveMTU
        | none => 0
      ({ t3 with conn := some c, mux := some { conn := c, bufferSize := bufSize } },
       none, evs)

/-- `ICETransport.Start`. -/
def start (t : Transport) (gatherer : Option Gatherer)
    (params : ICEParameters) (role : Option ICERole) (env : StartEnv) :
    Transport × Option Err × List Event :=
  match startPre t gatherer env with
  | (t1, some e) => (t1, some e, [])
  | (t1, none) => startRest t1 params role env

/-- Outcomes of the external close calls one `stop` may perform (`none` =
that close succeeded). -/
structure StopEnv where
  gathererGracefulCloseRes : Option Err
  gathererCloseRes : Option Err
  muxCloseRes : Option Err
deriving DecidableEq, Repr

/-- The error value `stop` returns: either a single collaborator error
propagated directly (the branches without a multiplexer) or the flattened
collection built from the `closeErrs` slice. -/
inductive StopErr where
  | single (e : Err)
  | multi (es : List Err)
deriving DecidableEq, Repr

/-- Modelled from the spec: `util.FlattenErrs` is not part of this file's
source; per the spec, errors from the closes performed are aggregated and
returned combined, never silently dropped, and an all-`nil` slice flattens to
no error. -/
def flattenErrs (errs : List (Option Err)) : Option StopErr :=
  match errs.filterMap id with
  | [] => none
  | es => some (StopErr.multi es)

/-- `ICETransport.stop`: store `Closed`, trigger the cancellation scope when
one exists, snapshot the multiplexer and gatherer, then (outside the lock)
close the multiplexer — preceded, when closing gracefully and a gatherer
exists, by the gatherer's graceful close — flattening the collected errors;
with no multiplexer, close the gatherer directly (gracefully or not). -/
def stop (t : Transport) (shouldGracefullyClose : Bool) (env : StopEnv) :
    Transport × Option StopErr × List Event :=
  let t1 := { t with state := ICETransportState.closed }
  let cancelEvs := if t1.hasCancel then [Event.cancelTriggered] else []
  match t1.mux with
  | some _ =>
    let gPart :=
      if shouldGracefullyClose ∧ t1.gatherer.isSome then
        ([env.gathererGracefulCloseRes], [Event.gathererGracefulClose])
      else ([], [])
    (t1, flattenErrs (gPart.1 ++ [env.muxCloseRes]),
     cancelEvs ++ gPart.2 ++ [Event.muxClose])
  | none =>
    match t1.gatherer with
    | some _ =>
      if shouldGracefullyClose then
        (t1, env.gathererGracefulCloseRes.map StopErr.single,
         cancelEvs ++ [Event.gathererGracefulClose])
      else
        (t1, env.gathererCloseRes.map StopErr.single,
         cancelEvs ++ [Event.gathererClose])
    | none => (t1, none, cancelEvs)

/-- `ICETransport.Stop`: `stop(false)`. -/
def Transport.Stop (t : Transport) (env : StopEnv) :
    Transport × Option StopErr × List Event :=
  stop t false env

/-- `ICETransport.GracefulStop`: `stop(true)`. -/
def Transport.GracefulStop (t : Transport) (env : StopEnv) :
    Transport × Option StopErr × List Event :=
  stop t true env

/-- `ICETransport.Role`. -/
def Transport.Role (t : Transport) : ICERole :=
  t.role

/-- `ICETransport.State`. -/
def Transport.State (t : Transport) : ICETransportState :=
  t.state

/-- The loop body of `SetRemoteCandidates`, generic in the agent's internal
state `α`: convert each candidate with `toICE`, hand it to the agent's
`AddRemoteCandidate`, and return on the first error; the agent keeps every
addition made before the failure (it is mutated in place in the source). -/
def applyCandidates {α : Type} (toICE : Nat → Except Err Nat)
    (addRemote : α → Nat → Except Err α) (a : α) :
    List Nat → α × Option Err
  | [] => (a, none)
  | c :: rest =>
    match toICE c with
    | Except.error e => (a, some e)
    | Except.ok i =>
      match addRemote a i with
      | Except.error e => (a, some e)
      | Except.ok a1 => applyCandidates toICE addRemote a1 rest

/-- `ICETransport.SetRemoteCandidates`: `ensureGatherer`, nil-agent check,
then the sequential conversion/addition loop.  The agent's internal state `a`
and its behaviour (`toICE`, `addRemote`) are collaborator parameters. -/
def setRemoteCandidates {α : Type} (t : Transport) (createAgentRes : Option Err)
    (toICE : Nat → Except Err Nat) (addRemote : α → Nat → Except Err α)
    (a : α) (remoteCandidates : List Nat) : Transport × α × Option Err :=
  match ensureGatherer t createAgentRes with
  | Except.error e => (t, a, some e)
  | Except.ok t1 =>
    if t1.hasAgent then
      let r := applyCandidates toICE addRemote a remoteCandidates
      (t1, r.1, r.2)
    else (t1, a, some Err.agentNotExist)

/-- `ICETransport.AddRemoteCandidate`: `ensureGatherer`, convert the
candidate when one is supplied (a `none` candidate is the end-of-candidates
sentinel passed through unconverted), nil-agent check, then the agent's
`AddRemoteCandidate`. -/
def addRemoteCandidate {α : Type} (t : Transport) (createAgentRes : Option Err)
    (toICE : Nat → Except Err Nat)
    (addRemote : α → Option Nat → Except Err α) (a : α)
    (remoteCandidate : Option Nat) : Transport × α × Option Err :=
  match ensureGatherer t createAgentRes with
  | Except.error e => (t, a, some e)
  | Except.ok t1 =>
    match remoteCandidate with
    | some c =>
      match toICE c with
      | Except.error e => (t1, a, some e)
      | Except.ok i =>
        if t1.hasAgent then
          match addRemote a (some i) with
          | Except.error e => (t1, a, some e)
          | Except.ok a1 => (t1, a1, none)
        else (t1, a, some Err.agentNotExist)
    | none =>
      if t1.hasAgent then
        match addRemote a none with
        | Except.error e => (t1, a, some e)
        | Except.ok a1 => (t1, a1, none)
      else (t1, a, some Err.agentNotExist)

/-- `ICETransport.setRemoteCredentials` as the source writes it: a bare
nil-agent check (no `ensureGatherer`, no lazy agent creation), then the
agent's `SetRemoteCredentials`, whose behaviour is the collaborator
parameter `agentSet`. -/
def setRemoteCredentials {α : Type} (t : Transport)
    (agentSet : α → String → String → α × Option Err) (a : α)
    (newUfrag newPwd : String) : Transport × α × Option Err :=
  if t.hasAgent then
    let r := agentSet a newUfrag newPwd
    (t, r.1, r.2)
  else (t, a, some Err.agentNotExist)

/-- Modelled from the spec: the spec's reading of `SetRemoteCredentials`
(claim sources: "All of the above require `ensureGatherer` to have succeeded
(auto-creating the agent lazily if the gatherer exists but has no agent
yet)"), i.e. a variant that first runs `ensureGatherer` before the nil-agent
check.  Kept only to compare against `setRemoteCredentials`, which embeds the
source. -/
def setRemoteCredentials_fromSpec {α : Type} (t : Transport)
    (createAgentRes : Option Err)
    (agentSet : α → String → String → α × Option Err) (a : α)
    (newUfrag newPwd : String) : Transport × α × Option Err :=
  match ensureGatherer t createAgentRes with
  | Except.error e => (t, a, some e)
  | Except.ok t1 =>
    if t1.hasAgent then
      let r := agentSet a newUfrag newPwd
      (t1, r.1, r.2)
    else (t1, a, some Err.agentNotExist)

/-- `ICETransport.restart`: nil-agent check, the agent's `Restart` with the
setting engine's credentials, then `gatherer.Gather()`; the two collaborator
outcomes are parameters.  The transport itself is not mutated. -/
def restart (t : Transport) (agentRestartRes : Option Err)
    (gatherRes : Option Err) : Transport × Option Err :=
  if t.hasAgent then
    match agentRestartRes with
    | some e => (t, some e)
    | none => (t, gatherRes)
  else (t, some Err.agentNotExist)

/-! ## Helper lemmas -/

/-- `ensureGatherer` only ever touches the `gatherer` field. -/
theorem ensureGatherer_preserves (t : Transport) (res : Option Err)
    (t2 : Transport) (h : ensureGatherer t res = Except.ok t2) :
    t2.conn = t.conn ∧ t2.mux = t.mux ∧ t2.state = t.state ∧
      t2.role = t.role ∧ t2.hasCancel = t.hasCancel := by
  unfold ensureGatherer at h
  cases hg : t.gatherer with
  | none => simp [hg] at h
  | some g =>
    simp only [hg] at h
    by_cases ha : g.hasAgent
    · simp [ha] at h
      simp [← h]
    · simp [ha] at h
      cases res with
      | some e => simp at h
      | none =>
        simp at h
        simp [← h]

/-- The first critical section of `Start` only ever touches the `gatherer`
field of the transport it returns. -/
theorem startPre_preserves (t : Transport) (g : Option Gatherer)
    (env : StartEnv) :
    (startPre t g env).1.conn = t.conn ∧ (startPre t g env).1.mux = t.mux ∧
      (startPre t g env).1.state = t.state ∧
      (startPre t g env).1.role = t.role ∧
      (startPre t g env).1.hasCancel = t.hasCancel := by
  unfold startPre
  split
  · cases g with
    | none =>
      cases he : ensureGatherer t env.createAgentRes with
      | error e => simp [he]
      | ok t2 =>
        obtain ⟨e1, e2, e3, e4, e5⟩ :=
          ensureGatherer_preserves t env.createAgentRes t2 he
        by_cases hag : t2.hasAgent <;>
          cases hc : env.onConnRegRes <;>
          cases hp : env.onPairRegRes <;>
          simp [he, hag, e1, e2, e3, e4, e5]
    | some g0 =>
      cases he : ensureGatherer { t with gatherer := some g0 } env.createAgentRes with
      | error e => simp [he]
      | ok t2 =>
        obtain ⟨e1, e2, e3, e4, e5⟩ :=
          ensureGatherer_preserves { t with gatherer := some g0 }
            env.createAgentRes t2 he
        simp only at e1 e2 e3 e4 e5
        by_cases hag : t2.hasAgent <;>
          cases hc : env.onConnRegRes <;>
          cases hp : env.onPairRegRes <;>
          simp [he, hag, e1, e2, e3, e4, e5]
  · simp

/-- When the precondition section succeeds, `start` runs its tail on the
transport the precondition section produced. -/
theorem start_eq_startRest (t : Transport) (g : Option Gatherer)
    (params : ICEParameters) (role : Option ICERole) (env : StartEnv)
    (h : (startPre t g env).2 = none) :
    start t g params role env = startRest (startPre t g env).1 params role env := by
  unfold start
  cases hp : startPre t g env with
  | mk t1 e =>
    have h2 : e = none := by rw [hp] at h; exact h
    subst h2
    rfl

/-- A gatherer that already owns an agent. -/
def gWithAgent : Gatherer := { hasAgent := true, receiveMTU := 1460 }

/-- A gatherer that has not yet created its agent. -/
def gNoAgent : Gatherer := { hasAgent := false, receiveMTU := 1460 }

/-- A freshly constructed transport bound to `gWithAgent`. -/
def tNew : Transport := newICETransport (some gWithAgent)

/-- A transport that has already been closed. -/
def tClosed : Transport := { tNew with state := ICETransportState.closed }

/-- Sample negotiated parameters. -/
def params1 : ICEParameters := { usernameFragment := "uf1", password := "pw1" }

/-- A `Start` environment in which every collaborator call succeeds and
nothing races the handshake. -/
def envOk : StartEnv :=
  { createAgentRes := none
    onConnRegRes := none
    onPairRegRes := none
    dialRes := Except.ok 7
    acceptRes := Except.ok 7
    midState := ICETransportState.new }

/-- A `Start` environment in which a concurrent stop closed the transport
while the handshake was in flight. -/
def envMidClosed : StartEnv :=
  { envOk with midState := ICETransportState.closed }

/-- A `stop` environment in which every close succeeds. -/
def stopEnvOk : StopEnv :=
  { gathererGracefulCloseRes := none
    gathererCloseRes := none
    muxCloseRes := none }

/-! ## Claim theorems -/

/-- C2: for every transport whose current state is not `New`, `Start`
returns the `NotInNewState` error and leaves all existing state (role,
gatherer, connection, multiplexer, state) unchanged — it returns the
transport exactly as it was, with no collaborator calls. -/
theorem start_notInNew (t : Transport) (g : Option Gatherer)
    (params : ICEParameters) (role : Option ICERole) (env : StartEnv)
    (h : t.state ≠ ICETransportState.new) :
    start t g params role env = (t, some Err.notInNew, []) := by
  unfold start startPre
  simp [h]

/-- Witness for C2 on a closed transport. -/
theorem start_notInNew_witness :
    start tClosed none params1 none envOk = (tClosed, some Err.notInNew, []) :=
  start_notInNew tClosed none params1 none envOk (by decide)

/-- Every `stop`, graceful or not, stores `Closed`. -/
theorem stop_sets_closed (t : Transport) (graceful : Bool) (env : StopEnv) :
    (stop t graceful env).1.state = ICETransportState.closed := by
  unfold stop
  cases graceful <;> cases hm : t.mux <;> cases hg : t.gatherer <;>
    simp [hm, hg]

/-- C4: immediate `Stop` stores `Closed`, triggers the cancellation scope
exactly when one exists, then closes the multiplexer when present, and
closes the gatherer directly only when no multiplexer exists. -/
theorem stop_immediate_shape (t : Transport) (env : StopEnv) :
    (t.Stop env).1.state = ICETransportState.closed ∧
      (t.Stop env).2.2 =
        (if t.hasCancel then [Event.cancelTriggered] else []) ++
          (match t.mux, t.gatherer with
           | some _, _ => [Event.muxClose]
           | none, some _ => [Event.gathererClose]
           | none, none => []) := by
  unfold Transport.Stop stop
  cases hm : t.mux <;> cases hg : t.gatherer <;> cases hc : t.hasCancel <;>
    simp [hm, hg, hc]

/-- The error `stop` returns is `nil` whenever the closes it actually
performs succeed; immediate `stop` never consults the graceful-close
outcome. -/
theorem stop_err_none (t : Transport) (env : StopEnv)
    (hm : env.muxCloseRes = none) (hg : env.gathererCloseRes = none) :
    (t.Stop env).2.1 = none := by
  unfold Transport.Stop stop
  cases h1 : t.mux <;> cases h2 : t.gatherer <;>
    simp [h1, h2, hm, hg, flattenErrs]

/-- C6: a second `Stop` after a first `Stop` is total (the model is a plain
function, so no panic is possible even with the connection and multiplexer
already torn down) and, when the underlying closes succeed, both calls
return no error; both calls leave the state `Closed`. -/
theorem stop_twice_ok (t : Transport) (env1 env2 : StopEnv)
    (h1m : env1.muxCloseRes = none) (h1g : env1.gathererCloseRes = none)
    (h2m : env2.muxCloseRes = none) (h2g : env2.gathererCloseRes = none) :
    (t.Stop env1).2.1 = none ∧
      ((t.Stop env1).1.Stop env2).2.1 = none ∧
      ((t.Stop env1).1.Stop env2).1.state = ICETransportState.closed := by
  exact ⟨stop_err_none t env1 h1m h1g,
    stop_err_none (t.Stop env1).1 env2 h2m h2g,
    stop_sets_closed (t.Stop env1).1 false env2⟩

/-- A transport holding a published connection and multiplexer. -/
def tConnected : Transport :=
  { tNew with conn := some 7, mux := some (Mux.mk 7 1460), hasCancel := true }

/-- Witness for C6 on a transport that had published a connection. -/
theorem stop_twice_ok_witness :
    (tConnected.Stop stopEnvOk).2.1 = none ∧
      ((tConnected.Stop stopEnvOk).1.Stop stopEnvOk).2.1 = none ∧
      ((tConnected.Stop stopEnvOk).1.Stop stopEnvOk).1.state =
        ICETransportState.closed :=
  stop_twice_ok tConnected stopEnvOk stopEnvOk rfl rfl rfl rfl

/-- C3: whenever `Start` passes its precondition checks, role `Controlling`
invokes the agent's `Dial` with the supplied username fragment and password,
role `Controlled` invokes the agent's `Accept` with the same credentials,
and any other role value fails with `UnknownRole` without performing any
dial or accept. -/
theorem start_role_dispatch (t : Transport) (g : Option Gatherer)
    (params : ICEParameters) (env : StartEnv)
    (hpre : (startPre t g env).2 = none) :
    (start t g params (some ICERole.controlling) env).2.2 =
        [Event.dial params.usernameFragment params.password] ∧
      (start t g params (some ICERole.controlled) env).2.2 =
        [Event.accept params.usernameFragment params.password] ∧
      (start t g params (some ICERole.unknown) env).2.2 = [] ∧
      (start t g params (some ICERole.unknown) env).2.1 =
        some Err.roleUnknown := by
  rw [start_eq_startRest t g params (some ICERole.controlling) env hpre,
    start_eq_startRest t g params (some ICERole.controlled) env hpre,
    start_eq_startRest t g params (some ICERole.unknown) env hpre]
  unfold startRest dispatch
  refine ⟨?_, ?_, ?_, ?_⟩
  · cases hd : env.dialRes <;>
      by_cases hcl : env.midState = ICETransportState.closed <;>
      simp [hd, hcl]
  · cases hd : env.acceptRes <;>
      by_cases hcl : env.midState = ICETransportState.closed <;>
      simp [hd, hcl]
  · simp
  · simp

/-- Witness for C3 on a fresh transport with a live agent. -/
theorem start_role_dispatch_witness :
    (start tNew none params1 (some ICERole.controlling) envOk).2.2 =
        [Event.dial "uf1" "pw1"] ∧
      (start tNew none params1 (some ICERole.controlled) envOk).2.2 =
        [Event.accept "uf1" "pw1"] ∧
      (start tNew none params1 (some ICERole.unknown) envOk).2.2 = [] ∧
      (start tNew none params1 (some ICERole.unknown) envOk).2.1 =
        some Err.roleUnknown :=
  start_role_dispatch tNew none params1 envOk rfl

/-- C9: when the role argument is unspecified, `Start` does not fail on the
missing role: it proceeds exactly as with role `Controlled`, stores
`Controlled` as the transport's role and waits to accept an incoming
connection with the supplied credentials. -/
theorem start_nil_role_defaults_controlled (t : Transport)
    (g : Option Gatherer) (params : ICEParameters) (env : StartEnv)
    (hpre : (startPre t g env).2 = none) :
    start t g params none env =
        start t g params (some ICERole.controlled) env ∧
      (start t g params none env).2.2 =
        [Event.accept params.usernameFragment params.password] ∧
      (start t g params none env).1.role = ICERole.controlled := by
  refine ⟨rfl, ?_, ?_⟩ <;>
    rw [start_eq_startRest t g params none env hpre] <;>
    unfold startRest dispatch <;>
    cases hd : env.acceptRes <;>
    by_cases hcl : env.midState = ICETransportState.closed <;>
    simp [hd, hcl]

/-- Witness for C9. -/
theorem start_nil_role_defaults_controlled_witness :
    start tNew none params1 none envOk =
        start tNew none params1 (some ICERole.controlled) envOk ∧
      (start tNew none params1 none envOk).2.2 = [Event.accept "uf1" "pw1"] ∧
      (start tNew none params1 none envOk).1.role = ICERole.controlled :=
  start_nil_role_defaults_controlled tNew none params1 envOk rfl

/-- C10: when `Start` passes its precondition checks but the dial/accept
fails, `Start` returns that error having already stored the requested role:
`Role()` on the resulting transport returns the role passed to the failed
`Start`. -/
theorem start_dial_error_keeps_role (t : Transport) (g : Option Gatherer)
    (params : ICEParameters) (env : StartEnv) (r : ICERole) (e : Err)
    (hpre : (startPre t g env).2 = none)
    (hr : r = ICERole.controlling ∧ env.dialRes = Except.error e ∨
      r = ICERole.controlled ∧ env.acceptRes = Except.error e) :
    (start t g params (some r) env).2.1 = some e ∧
      (start t g params (some r) env).1.Role = r := by
  rw [start_eq_startRest t g params (some r) env hpre]
  unfold startRest dispatch Transport.Role
  rcases hr with ⟨hr, hd⟩ | ⟨hr, hd⟩ <;> subst hr <;> simp [hd]

/-- Witness for C10: a controlling `Start` whose dial fails. -/
theorem start_dial_error_keeps_role_witness :
    (start tNew none params1 (some ICERole.controlling)
          { envOk with dialRes := Except.error (Err.external 5) }).2.1 =
        some (Err.external 5) ∧
      (start tNew none params1 (some ICERole.controlling)
          { envOk with dialRes := Except.error (Err.external 5) }).1.Role =
        ICERole.controlling :=
  start_dial_error_keeps_role tNew none params1
    { envOk with dialRes := Except.error (Err.external 5) }
    ICERole.controlling (Err.external 5) rfl (Or.inl ⟨rfl, rfl⟩)

/-- C5: on a transport with a multiplexer (and hence the gatherer through
which the connection was established), `GracefulStop` calls the gatherer's
graceful-close path before closing the multiplexer, and returns the errors
of both closes flattened together, dropping neither. -/
theorem gracefulStop_order_aggregate (t : Transport) (env : StopEnv)
    (hm : t.mux.isSome = true) (hg : t.gatherer.isSome = true) :
    (t.GracefulStop env).2.2 =
        (if t.hasCancel then [Event.cancelTriggered] else []) ++
          [Event.gathererGracefulClose, Event.muxClose] ∧
      (t.GracefulStop env).2.1 =
        flattenErrs [env.gathererGracefulCloseRes, env.muxCloseRes] ∧
      (∀ e1 e2, env.gathererGracefulCloseRes = some e1 →
        env.muxCloseRes = some e2 →
        (t.GracefulStop env).2.1 = some (StopErr.multi [e1, e2])) := by
  obtain ⟨m, hm1⟩ := Option.isSome_iff_exists.mp hm
  obtain ⟨g0, hg1⟩ := Option.isSome_iff_exists.mp hg
  unfold Transport.GracefulStop stop
  refine ⟨?_, ?_, ?_⟩
  · simp [hm1, hg1]
  · simp [hm1, hg1]
  · intro e1 e2 he1 he2
    simp [hm1, hg1, he1, he2, flattenErrs]

/-- A graceful-stop environment in which both closes fail. -/
def stopEnvBothFail : StopEnv :=
  { gathererGracefulCloseRes := some (Err.external 1)
    gathererCloseRes := none
    muxCloseRes := some (Err.external 2) }

/-- Witness for C5: both close errors surface, in order. -/
theorem gracefulStop_order_aggregate_witness :
    (tConnected.GracefulStop stopEnvBothFail).2.2 =
        [Event.cancelTriggered, Event.gathererGracefulClose, Event.muxClose] ∧
      (tConnected.GracefulStop stopEnvBothFail).2.1 =
        some (StopErr.multi [Err.external 1, Err.external 2]) := by
  have H := gracefulStop_order_aggregate tConnected stopEnvBothFail rfl rfl
  exact ⟨H.1.trans rfl, H.2.2 (Err.external 1) (Err.external 2) rfl rfl⟩

/-- `stop` never reassigns the connection or multiplexer fields. -/
theorem stop_preserves_conn_mux (t : Transport) (graceful : Bool)
    (env : StopEnv) :
    (stop t graceful env).1.conn = t.conn ∧
      (stop t graceful env).1.mux = t.mux := by
  unfold stop
  cases graceful <;> cases hm : t.mux <;> cases hg : t.gatherer <;>
    simp [hm, hg]

/-- `SetRemoteCandidates` never reassigns the connection or multiplexer
fields. -/
theorem setRemoteCandidates_preserves_conn_mux {α : Type} (t : Transport)
    (creq : Option Err) (toICE : Nat → Except Err Nat)
    (addRemote : α → Nat → Except Err α) (a : α) (cs : List Nat) :
    (setRemoteCandidates t creq toICE addRemote a cs).1.conn = t.conn ∧
      (setRemoteCandidates t creq toICE addRemote a cs).1.mux = t.mux := by
  unfold setRemoteCandidates
  cases he : ensureGatherer t creq with
  | error e => simp [he]
  | ok t1 =>
    obtain ⟨e1, e2, _, _, _⟩ := ensureGatherer_preserves t creq t1 he
    by_cases hag : t1.hasAgent <;> simp [he, hag, e1, e2]

/-- `AddRemoteCandidate` never reassigns the connection or multiplexer
fields. -/
theorem addRemoteCandidate_preserves_conn_mux {α : Type} (t : Transport)
    (creq : Option Err) (toICE : Nat → Except Err Nat)
    (addRemote : α → Option Nat → Except Err α) (a : α) (cand : Option Nat) :
    (addRemoteCandidate t creq toICE addRemote a cand).1.conn = t.conn ∧
      (addRemoteCandidate t creq toICE addRemote a cand).1.mux = t.mux := by
  unfold addRemoteCandidate
  cases he : ensureGatherer t creq with
  | error e => simp [he]
  | ok t1 =>
    obtain ⟨e1, e2, _, _, _⟩ := ensureGatherer_preserves t creq t1 he
    cases cand with
    | none =>
      by_cases hag : t1.hasAgent <;> cases har : addRemote a none <;>
        simp [he, hag, har, e1, e2]
    | some c0 =>
      cases hi : toICE c0 with
      | error e => simp [he, hi, e1, e2]
      | ok i =>
        by_cases hag : t1.hasAgent <;> cases har : addRemote a (some i) <;>
          simp [he, hi, hag, har, e1, e2]

/-- `setRemoteCredentials` returns the transport unchanged. -/
theorem setRemoteCredentials_fst {α : Type} (t : Transport)
    (agentSet : α → String → String → α × Option Err) (a : α)
    (uf pwd : String) :
    (setRemoteCredentials t agentSet a uf pwd).1 = t := by
  unfold setRemoteCredentials
  by_cases hag : t.hasAgent <;> simp [hag]

/-- `restart` returns the transport unchanged. -/
theorem restart_fst (t : Transport) (r1 r2 : Option Err) :
    (restart t r1 r2).1 = t := by
  unfold restart
  by_cases hag : t.hasAgent <;> cases r1 <;> simp [hag]

/-- C1: if the transport state has become `Closed` by the time `Start`
reacquires its lock after a successful dial/accept, `Start` returns
`TransportClosed` and neither stores the obtained connection nor constructs
the multiplexer; and once the state is `Closed`, no operation of the
transport ever (re)assigns the connection or multiplexer fields — a `Start`
from `Closed` returns the transport unchanged, and `stop`,
`SetRemoteCandidates`, `AddRemoteCandidate`, `setRemoteCredentials` and
`restart` preserve both fields on every transport, closed ones included. -/
theorem closed_wins_and_never_reassigned (t : Transport) (g : Option Gatherer)
    (params : ICEParameters) (role : Option ICERole) (env : StartEnv)
    (c : Nat) (creq : Option Err) (toICE : Nat → Except Err Nat)
    (addRemote : List Nat → Nat → Except Err (List Nat))
    (addRemote1 : List Nat → Option Nat → Except Err (List Nat))
    (a cs : List Nat) (cand : Option Nat)
    (agentSet : List Nat → String → String → List Nat × Option Err)
    (uf pwd : String) (senv : StopEnv) (graceful : Bool)
    (agentRestartRes gatherRes : Option Err) :
    ((startPre t g env).2 = none →
      (dispatch (role.getD ICERole.controlled) params env).1 = Except.ok c →
      env.midState = ICETransportState.closed →
      (start t g params role env).2.1 = some Err.transportClosed ∧
        (start t g params role env).1.conn = t.conn ∧
        (start t g params role env).1.mux = t.mux) ∧
      (t.state = ICETransportState.closed →
        start t g params role env = (t, some Err.notInNew, [])) ∧
      ((stop t graceful senv).1.conn = t.conn ∧
        (stop t graceful senv).1.mux = t.mux) ∧
      ((setRemoteCandidates t creq toICE addRemote a cs).1.conn = t.conn ∧
        (setRemoteCandidates t creq toICE addRemote a cs).1.mux = t.mux) ∧
      ((addRemoteCandidate t creq toICE addRemote1 a cand).1.conn = t.conn ∧
        (addRemoteCandidate t creq toICE addRemote1 a cand).1.mux = t.mux) ∧
      ((setRemoteCredentials t agentSet a uf pwd).1.conn = t.conn ∧
        (setRemoteCredentials t agentSet a uf pwd).1.mux = t.mux) ∧
      ((restart t agentRestartRes gatherRes).1.conn = t.conn ∧
        (restart t agentRestartRes gatherRes).1.mux = t.mux) := by
  refine ⟨?_, ?_, stop_preserves_conn_mux t graceful senv,
    setRemoteCandidates_preserves_conn_mux t creq toICE addRemote a cs,
    addRemoteCandidate_preserves_conn_mux t creq toICE addRemote1 a cand,
    ⟨by rw [setRemoteCredentials_fst], by rw [setRemoteCredentials_fst]⟩,
    ⟨by rw [restart_fst], by rw [restart_fst]⟩⟩
  · intro hpre hd hmid
    obtain ⟨p1, p2, _, _, _⟩ := startPre_preserves t g env
    rw [start_eq_startRest t g params role env hpre]
    unfold startRest
    cases hdisp : dispatch (role.getD ICERole.controlled) params env with
    | mk dres evs =>
      rw [hdisp] at hd
      have hd2 : dres = Except.ok c := hd
      subst hd2
      simp [hdisp, hmid, p1, p2]
  · intro hclosed
    unfold start startPre
    simp [hclosed]

/-- Witness for C1: a `Start` whose accept succeeds but whose transport was
closed concurrently returns `TransportClosed` and publishes nothing; a
`Start` from `Closed` returns the transport unchanged. -/
theorem closed_wins_and_never_reassigned_witness :
    ((start tNew none params1 none envMidClosed).2.1 =
        some Err.transportClosed ∧
      (start tNew none params1 none envMidClosed).1.conn = tNew.conn ∧
      (start tNew none params1 none envMidClosed).1.mux = tNew.mux) ∧
      start tClosed none params1 none envOk =
        (tClosed, some Err.notInNew, []) := by
  have H1 := closed_wins_and_never_reassigned tNew none params1 none
    envMidClosed 7 none Except.ok (fun a i => Except.ok (a ++ [i]))
    (fun a _ => Except.ok a) [] [] none (fun a _ _ => (a, none)) "u" "p"
    stopEnvOk false none none
  have H2 := closed_wins_and_never_reassigned tClosed none params1 none
    envOk 7 none Except.ok (fun a i => Except.ok (a ++ [i]))
    (fun a _ => Except.ok a) [] [] none (fun a _ _ => (a, none)) "u" "p"
    stopEnvOk false none none
  exact ⟨H1.1 rfl rfl rfl, H2.2.1 rfl⟩

/-- The agent's candidate store modelled as the list of ICE candidates added
so far: `AddRemoteCandidate` appends, failing with `addErr i` when that
addition is rejected. -/
def appendAdd (addErr : Nat → Option Err) (a : List Nat) (i : Nat) :
    Except Err (List Nat) :=
  match addErr i with
  | some e => Except.error e
  | none => Except.ok (a ++ [i])

/-- A candidate passes when its conversion succeeds and the agent accepts
the converted candidate. -/
def candOk (toICE : Nat → Except Err Nat) (addErr : Nat → Option Err)
    (c : Nat) : Bool :=
  match toICE c with
  | Except.error _ => false
  | Except.ok i => (addErr i).isNone

/-- The error a failing candidate produces: its conversion error, or else
the agent's rejection of the converted candidate. -/
def candErr (toICE : Nat → Except Err Nat) (addErr : Nat → Option Err)
    (c : Nat) : Option Err :=
  match toICE c with
  | Except.error e => some e
  | Except.ok i => addErr i

/-- The converted forms of the candidates that pass conversion. -/
def throughICE (toICE : Nat → Except Err Nat) (cs : List Nat) : List Nat :=
  cs.filterMap fun c => (toICE c).toOption

/-- Walking the loop over a prefix of candidates that all pass appends their
converted forms to the agent's store and continues with the rest. -/
theorem applyCandidates_ok_prefix (toICE : Nat → Except Err Nat)
    (addErr : Nat → Option Err) (pre : List Nat) :
    ∀ (a rest : List Nat), (∀ c ∈ pre, candOk toICE addErr c = true) →
      applyCandidates toICE (appendAdd addErr) a (pre ++ rest) =
        applyCandidates toICE (appendAdd addErr)
          (a ++ throughICE toICE pre) rest := by
  induction pre with
  | nil => intro a rest _; simp [throughICE]
  | cons c pre ih =>
    intro a rest h
    have hc := h c (List.mem_cons_self c pre)
    unfold candOk at hc
    cases hi : toICE c with
    | error e => rw [hi] at hc; simp at hc
    | ok i =>
      rw [hi] at hc
      simp only [Option.isNone_iff_eq_none] at hc
      have hstep : applyCandidates toICE (appendAdd addErr) a
          ((c :: pre) ++ rest) =
          applyCandidates toICE (appendAdd addErr) (a ++ [i]) (pre ++ rest) := by
        simp [applyCandidates, hi, appendAdd, hc]
      rw [hstep, ih (a ++ [i]) rest fun x hx => h x (List.mem_cons_of_mem c hx)]
      simp [throughICE, List.filterMap_cons, hi, Except.toOption]

/-- A failing candidate stops the loop at once, keeping the agent's store as
it stands. -/
theorem applyCandidates_fail_head (toICE : Nat → Except Err Nat)
    (addErr : Nat → Option Err) (a rest : List Nat) (c : Nat)
    (hc : candOk toICE addErr c = false) :
    applyCandidates toICE (appendAdd addErr) a (c :: rest) =
      (a, candErr toICE addErr c) := by
  unfold candOk at hc
  unfold applyCandidates candErr
  cases hi : toICE c with
  | error e => simp [hi]
  | ok i =>
    rw [hi] at hc
    simp only [Option.isNone_iff_eq_none] at hc
    cases ha : addErr i with
    | none => rw [ha] at hc; simp at hc
    | some e => simp [hi, appendAdd, ha]

/-- C7: on a transport whose gatherer owns an agent, `SetRemoteCandidates`
applies each candidate to the agent in sequence; if every candidate converts
and is accepted it returns success with all of them applied, and otherwise
it returns the first conversion or addition error immediately — whatever
follows the failing candidate is never examined — leaving every candidate
added before the failing one applied to the agent (no rollback). -/
theorem setRemoteCandidates_sequential (t : Transport) (g0 : Gatherer)
    (creq : Option Err) (toICE : Nat → Except Err Nat)
    (addErr : Nat → Option Err) (a cs pre rest : List Nat) (c : Nat)
    (hg : t.gatherer = some g0) (hga : g0.hasAgent = true) :
    ((∀ x ∈ cs, candOk toICE addErr x = true) →
      setRemoteCandidates t creq toICE (appendAdd addErr) a cs =
        (t, a ++ throughICE toICE cs, none)) ∧
      ((∀ x ∈ pre, candOk toICE addErr x = true) →
        candOk toICE addErr c = false →
        setRemoteCandidates t creq toICE (appendAdd addErr) a
            (pre ++ c :: rest) =
          (t, a ++ throughICE toICE pre, candErr toICE addErr c) ∧
        ∃ e, candErr toICE addErr c = some e) := by
  have hta : t.hasAgent = true := by unfold Transport.hasAgent; rw [hg]; exact hga
  have hens : ensureGatherer t creq = Except.ok t := by
    unfold ensureGatherer; rw [hg]; simp [hga]
  constructor
  · intro hall
    have := applyCandidates_ok_prefix toICE addErr cs a [] hall
    simp only [List.append_nil] at this
    simp [setRemoteCandidates, hens, hta, this, applyCandidates]
  · intro hpre hfail
    refine ⟨?_, ?_⟩
    · have h1 := applyCandidates_ok_prefix toICE addErr pre a (c :: rest) hpre
      have h2 := applyCandidates_fail_head toICE addErr
        (a ++ throughICE toICE pre) rest c hfail
      simp [setRemoteCandidates, hens, hta, h1, h2]
    · unfold candOk at hfail
      unfold candErr
      cases hi : toICE c with
      | error e => exact ⟨e, rfl⟩
      | ok i =>
        rw [hi] at hfail
        simp only [Option.isNone_eq_false_iff, Option.isSome_iff_exists] at hfail
        obtain ⟨e, he⟩ := hfail
        exact ⟨e, he⟩

/-- The agent used by the C7 witness rejects converted candidate `2`. -/
def addErrW (i : Nat) : Option Err :=
  if i = 2 then some (Err.external 9) else none

/-- Witness for C7: `[1, 2, 3]` aborts at candidate `2` with `1` already
applied and `3` never examined; `[1, 3]` succeeds with both applied. -/
theorem setRemoteCandidates_sequential_witness :
    setRemoteCandidates tNew none Except.ok (appendAdd addErrW) [] [1, 2, 3] =
        (tNew, [1], some (Err.external 9)) ∧
      setRemoteCandidates tNew none Except.ok (appendAdd addErrW) [] [1, 3] =
        (tNew, [1, 3], none) := by
  have H := setRemoteCandidates_sequential tNew gWithAgent none Except.ok
    addErrW [] [1, 3] [1] [3] 2 rfl rfl
  have h1 := (H.2 (by decide) (by decide)).1
  have h2 := H.1 (by decide)
  exact ⟨h1.trans rfl, h2.trans rfl⟩

/-- A transport whose gatherer exists but has not yet created its agent. -/
def tNoAgent : Transport := newICETransport (some gNoAgent)

/-- Counterexample to C8's first half: on a transport whose gatherer exists
but has no agent yet, and with an agent creation that would succeed and an
agent call that would succeed, `setRemoteCredentials` as the source writes
it returns `AgentUnavailable` and leaves the gatherer without an agent — it
does not run `ensureGatherer` and never lazily creates the agent — whereas
the claim's `ensureGatherer`-first reading would create the agent and
succeed. -/
theorem setRemoteCredentials_no_lazy_creation :
    setRemoteCredentials tNoAgent (fun (a : List Nat) _ _ => (a, none))
        ([] : List Nat) "uf2" "pw2" =
      (tNoAgent, [], some Err.agentNotExist) ∧
      tNoAgent.hasAgent = false ∧
      (setRemoteCredentials_fromSpec tNoAgent none
          (fun (a : List Nat) _ _ => (a, none)) [] "uf2" "pw2").2.2 = none ∧
      (setRemoteCredentials_fromSpec tNoAgent none
          (fun (a : List Nat) _ _ => (a, none)) [] "uf2" "pw2").1.hasAgent =
        true := by
  exact ⟨rfl, rfl, rfl, rfl⟩

/-- C8 (amended): `setRemoteCredentials` performs only a nil-agent check —
no `ensureGatherer` call and no lazy agent creation.  Whenever the
gatherer's agent does not exist (in particular when the gatherer exists but
has not yet created an agent) it fails with `AgentUnavailable`, leaving the
transport and agent untouched; when the agent exists it delegates to the
agent's `SetRemoteCredentials`. -/
theorem setRemoteCredentials_nilAgent_check {α : Type} (t : Transport)
    (agentSet : α → String → String → α × Option Err) (a : α)
    (uf pwd : String) :
    (t.hasAgent = false →
      setRemoteCredentials t agentSet a uf pwd =
        (t, a, some Err.agentNotExist)) ∧
      (t.hasAgent = true →
        setRemoteCredentials t agentSet a uf pwd =
          (t, (agentSet a uf pwd).1, (agentSet a uf pwd).2)) := by
  unfold setRemoteCredentials
  constructor <;> intro h <;> simp [h]

/-- Witness for C8 (amended), on the agentless transport. -/
theorem setRemoteCredentials_nilAgent_check_witness :
    setRemoteCredentials tNoAgent
        (fun (a : List Nat) _ _ => (a, none)) [] "uf2" "pw2" =
      (tNoAgent, [], some Err.agentNotExist) :=
  (setRemoteCredentials_nilAgent_check tNoAgent
    (fun a _ _ => (a, none)) [] "uf2" "pw2").1 rfl

end IceTransport
